import Mathlib

/-!
Shallow embedding of `src/ground_control/main.py` (Ground-Control): a one-shot
exporter that fetches issues from a remote tracker and materializes them as a
hierarchical directory tree.  Python strings are modelled as `String` (code
points, matching Python `len`/slicing), the filesystem as explicit state, and
Python exceptions as `Except`.
-/

/-- Substring test, modelling Python's `needle in hay`. -/
def containsSub (needle hay : String) : Bool :=
  decide (needle.toList <:+: hay.toList)

/-- The module constant `OUTPUT_DIR = "tickets"`. -/
def OUTPUT_DIR : String := "tickets"

/-- The module constant `JIRA_URL = os.environ.get("JIRA_URL", "")`; the model
fixes the environment default. -/
def JIRA_URL : String := ""

/-- `os.path.join` for the two-component joins used by the program. -/
def joinPath (a b : String) : String := a ++ "/" ++ b

/-- `os.path.join(OUTPUT_DIR, "0-UNASSIGNED")` from `main`. -/
def unassignedDir : String := joinPath OUTPUT_DIR "0-UNASSIGNED"

/-- The Python attribute `issue.fields.parent`: in the remote payload the
attribute can be missing altogether (`hasattr` is false), present but `None`
(attribute access on it raises `AttributeError`), or a parent object carrying
`key` and `fields.issuetype.name`. -/
inductive PAttr where
  | absent
  | null
  | ref (key : String) (issuetype : String)
deriving DecidableEq

/-- The fields of a fetched issue that `main.py` reads.  `epicLink` models
`issue.fields.customfield_10014`, with `none` for a missing/null attribute and
`some s` for a present string (an empty string is falsy in Python). -/
structure Issue where
  key : String
  id : String
  issuetype : String
  status : String
  summary : String
  reporter : String
  assignee : Option String
  updated : String
  description : Option String
  parent : PAttr
  epicLink : Option String
deriving DecidableEq

/-- One comment as consumed by `create_ticket_directory`. -/
structure Comment where
  author : String
  updated : String
  body : String
deriving DecidableEq

/-- The `{"key": ..., "type": ...}` parent record built by
`get_issue_relationships`. -/
structure ParentRef where
  key : String
  ptype : String
deriving DecidableEq

/-- The result dictionary of `get_issue_relationships`: an optional parent and
a `children` list that the function always leaves empty. -/
structure Rels where
  parent : Option ParentRef
  children : List String
deriving DecidableEq

/-- `get_issue_relationships(issue)` (main.py:38-70).  The `PAttr.null` case
models `issue.fields.parent` being `None`: `hasattr` succeeds, so the code
takes the first branch and `parent.key` raises `AttributeError`. -/
def get_issue_relationships (issue : Issue) : Except String Rels :=
  match issue.parent with
  | .ref k t => .ok { parent := some { key := k, ptype := t }, children := [] }
  | .null => .error "AttributeError: NoneType object has no attribute key"
  | .absent =>
    match issue.epicLink with
    | some epicKey =>
      if epicKey ≠ "" then
        .ok { parent := some { key := epicKey, ptype := "Epic" }, children := [] }
      else
        .ok { parent := none, children := [] }
    | none => .ok { parent := none, children := [] }

/-- Python `str.lower()`, character by character. -/
def strLower (s : String) : String := (s.toList.map Char.toLower).asString

/-- `get_type_prefix(issue_type)` (main.py:72-82); the Lean name avoids the
word that the Python function ends with. -/
def getTypePrefixOf (issueType : String) : String :=
  let typeLower := strLower issueType
  if containsSub "initiative" typeLower then "INI"
  else if containsSub "epic" typeLower then "EPIC"
  else if containsSub "story" typeLower then "STORY"
  else "TASK"

/-- The reserved characters `<>:"/\|?*` of `sanitize_filename`. -/
def invalidChars : List Char := ['<', '>', ':', '"', '/', '\\', '|', '?', '*']

/-- One round of `s.replace(c, '_')` on the character list. -/
def replaceCharL (l : List Char) (c : Char) : List Char :=
  l.map fun d => if d = c then '_' else d

/-- The `for c in invalid_chars: s = s.replace(c, '_')` loop. -/
def replaceInvalidL (l : List Char) : List Char :=
  invalidChars.foldl replaceCharL l

/-- Membership in the strip set of `s.strip('. ')`. -/
def isStripChar (c : Char) : Bool := c = '.' || c = ' '

/-- `s.strip('. ')`: drop the strip characters from both ends. -/
def stripBoth (l : List Char) : List Char :=
  List.rdropWhile isStripChar (l.dropWhile isStripChar)

/-- `sanitize_filename(s)` (main.py:17-25) on character lists. -/
def sanitizeL (l : List Char) : List Char :=
  stripBoth (replaceInvalidL l)

/-- `sanitize_filename(s)` (main.py:17-25). -/
def sanitize_filename (s : String) : String :=
  (sanitizeL s.toList).asString

/-- The summary truncation of `create_ticket_directory` (main.py:90-92):
`summary[:47] + "..."` when `len(summary) > 50`. -/
def displaySummary (s : String) : String :=
  if s.length > 50 then (s.toList.take 47).asString ++ "..." else s

/-- The directory leaf name computed by `create_ticket_directory`
(main.py:94-99); lines 96-99 inline the same replace-and-strip steps as
`sanitize_filename`. -/
def dirLeafName (issue : Issue) : String :=
  sanitize_filename
    (getTypePrefixOf issue.issuetype ++ "-" ++ issue.key ++ "-" ++
      displaySummary issue.summary)

/-- JSON escaping of one character as performed by `json.dump` for the
characters these documents contain. -/
def jsonEscapeChar (c : Char) : String :=
  if c = '\\' then "\\\\" else if c = '"' then "\\\"" else String.singleton c

/-- JSON escaping of a whole string. -/
def jsonEscape (s : String) : String :=
  String.join (s.toList.map jsonEscapeChar)

/-- A JSON string literal. -/
def jsonStr (s : String) : String := "\"" ++ jsonEscape s ++ "\""

/-- The text of `metadata.json` as written by `create_ticket_directory`
(main.py:109-130): `json.dump(metadata, f, indent=2)` followed by a trailing
newline, with the keys in insertion order and `parent` appended only when a
parent was resolved. -/
def metadataJson (issue : Issue) (rel : Rels) : String :=
  "\x7b\n"
  ++ "  \"key\": " ++ jsonStr issue.key ++ ",\n"
  ++ "  \"id\": " ++ jsonStr issue.id ++ ",\n"
  ++ "  \"url\": " ++ jsonStr (JIRA_URL ++ "/browse/" ++ issue.key) ++ ",\n"
  ++ "  \"type\": " ++ jsonStr issue.issuetype ++ ",\n"
  ++ "  \"status\": " ++ jsonStr issue.status ++ ",\n"
  ++ "  \"summary\": " ++ jsonStr issue.summary ++ ",\n"
  ++ "  \"reporter\": " ++ jsonStr issue.reporter ++ ",\n"
  ++ "  \"assignee\": "
  ++ (match issue.assignee with | some a => jsonStr a | none => "null") ++ ",\n"
  ++ "  \"updated\": " ++ jsonStr issue.updated
  ++ (match rel.parent with
      | some p =>
        ",\n  \"parent\": \x7b\n    \"key\": " ++ jsonStr p.key
          ++ ",\n    \"type\": " ++ jsonStr p.ptype ++ "\n  \x7d"
      | none => "")
  ++ "\n\x7d\n"

/-- One `## <author> - <updated>` comment section of `ticket.md`. -/
def commentBlock (c : Comment) : String :=
  "## " ++ c.author ++ " - " ++ c.updated ++ "\n\n" ++ c.body ++ "\n\n"

/-- The text of `ticket.md` as written by `create_ticket_directory`
(main.py:132-168).  The source's `if "summary" in parent` write never fires
because the parent records built by `get_issue_relationships` carry only
`key` and `type`. -/
def ticketMd (issue : Issue) (rel : Rels) (comments : List Comment) : String :=
  "# " ++ issue.key ++ ": " ++ issue.summary ++ "\n\n"
  ++ "# Metadata\n\n"
  ++ "- Type: " ++ issue.issuetype ++ "\n"
  ++ "- Status: " ++ issue.status ++ "\n"
  ++ "- Reporter: " ++ issue.reporter ++ "\n"
  ++ "- Assignee: "
  ++ (match issue.assignee with | some a => a | none => "Unassigned") ++ "\n"
  ++ "- Updated: " ++ issue.updated ++ "\n"
  ++ "- URL: " ++ JIRA_URL ++ "/browse/" ++ issue.key ++ "\n"
  ++ (match rel.parent with
      | some p =>
        "- Parent: [" ++ p.key ++ "](" ++ JIRA_URL ++ "/browse/" ++ p.key
          ++ ")" ++ "\n"
      | none => "")
  ++ "\n"
  ++ "# Description\n\n"
  ++ (match issue.description with
      | some d => d
      | none => "_No description provided_") ++ "\n\n"
  ++ (if comments.isEmpty then ""
      else "# Comments\n\n" ++ String.join (comments.map commentBlock))
  ++ "\n"

/-- The filesystem state the program mutates: regular files (path, content)
and the set of created directories. -/
structure FS where
  files : List (String × String)
  dirs : List String
deriving DecidableEq

/-- `open(path, "w")` followed by a full write: replaces the content of an
existing file in place, creates the file otherwise. -/
def setFile : List (String × String) → String → String → List (String × String)
  | [], k, v => [(k, v)]
  | (k', v') :: t, k, v =>
    if k' = k then (k, v) :: t else (k', v') :: setFile t k v

/-- `os.makedirs(d, exist_ok=True)`.  The model records the created path
itself, the only path the program later consults; intermediate ancestors are
not tracked separately. -/
def mkdirFS (fs : FS) (d : String) : FS :=
  if fs.dirs.contains d then fs else { fs with dirs := fs.dirs ++ [d] }

/-- Lookup in an association list, newest binding first. -/
def lookupD : List (String × String) → String → Option String
  | [], _ => none
  | (k, v) :: t, q => if k = q then some v else lookupD t q

/-- Python dict assignment `issue_dirs[key] = path`: `lookupD` returns the
newest binding, so prepending models overwrite. -/
def insertD (m : List (String × String)) (k v : String) :
    List (String × String) :=
  (k, v) :: m

/-- `create_ticket_directory(issue, jira, parent_dir)` (main.py:84-170).
`comments` stands for the collaborator call `jira.comments(issue)`; the
returned state pairs the updated filesystem with the created path. -/
def createTicketDirectory (issue : Issue) (comments : List Comment)
    (parentDir : Option String) (fs : FS) : Except String (FS × String) :=
  let baseDir := match parentDir with | some d => d | none => OUTPUT_DIR
  let issueDir := joinPath baseDir (dirLeafName issue)
  let fs1 := mkdirFS fs issueDir
  match get_issue_relationships issue with
  | .error e => .error e
  | .ok rel =>
    let fs2 : FS := { fs1 with
      files := setFile fs1.files (joinPath issueDir "metadata.json")
        (metadataJson issue rel) }
    let fs3 : FS := { fs2 with
      files := setFile fs2.files (joinPath issueDir "ticket.md")
        (ticketMd issue rel comments) }
    .ok (fs3, issueDir)

/-- The classification `'initiative' in issue_type` used by `main`'s
partitioning (main.py:230-237). -/
def isInitiativeType (issue : Issue) : Bool :=
  containsSub "initiative" (strLower issue.issuetype)

/-- The classification `'epic' in issue_type` used by `main`'s partitioning. -/
def isEpicType (issue : Issue) : Bool :=
  containsSub "epic" (strLower issue.issuetype)

/-- The initiatives loop body (main.py:243-244): materialize at the output
root and record the directory. -/
def stepInitiative (commentsOf : String → List Comment)
    (st : FS × List (String × String)) (issue : Issue) :
    Except String (FS × List (String × String)) :=
  match createTicketDirectory issue (commentsOf issue.key) none st.1 with
  | .error e => .error e
  | .ok (fs', path) => .ok (fs', insertD st.2 issue.key path)

/-- The epics loop body (main.py:247-252): under the recorded parent when the
resolved parent key is present, else at the output root. -/
def stepEpic (commentsOf : String → List Comment)
    (st : FS × List (String × String)) (issue : Issue) :
    Except String (FS × List (String × String)) :=
  match get_issue_relationships issue with
  | .error e => .error e
  | .ok rel =>
    let pd : Option String :=
      match rel.parent with
      | some p => lookupD st.2 p.key
      | none => none
    match createTicketDirectory issue (commentsOf issue.key) pd st.1 with
    | .error e => .error e
    | .ok (fs', path) => .ok (fs', insertD st.2 issue.key path)

/-- The stories/tasks loop body (main.py:255-260): under the recorded parent
when present, else under the unassigned directory. -/
def stepOther (commentsOf : String → List Comment)
    (st : FS × List (String × String)) (issue : Issue) :
    Except String (FS × List (String × String)) :=
  match get_issue_relationships issue with
  | .error e => .error e
  | .ok rel =>
    let pd : Option String :=
      match rel.parent with
      | some p =>
        match lookupD st.2 p.key with
        | some d => some d
        | none => some unassignedDir
      | none => some unassignedDir
    match createTicketDirectory issue (commentsOf issue.key) pd st.1 with
    | .error e => .error e
    | .ok (fs', path) => .ok (fs', insertD st.2 issue.key path)

/-- The materialization phase of `main` (main.py:220-260): prepare the output
root and the unassigned directory, partition by type, then process the three
tiers in order, threading the `issue_dirs` map. -/
def mainExport (commentsOf : String → List Comment) (issues : List Issue)
    (fs : FS) : Except String (FS × List (String × String)) := do
  let fs0 := mkdirFS fs OUTPUT_DIR
  let fs1 := mkdirFS fs0 unassignedDir
  let initiatives := issues.filter isInitiativeType
  let epics := issues.filter fun i => !isInitiativeType i && isEpicType i
  let others := issues.filter fun i => !isInitiativeType i && !isEpicType i
  let st1 ← initiatives.foldlM (stepInitiative commentsOf)
    (fs1, ([] : List (String × String)))
  let st2 ← epics.foldlM (stepEpic commentsOf) st1
  others.foldlM (stepOther commentsOf) st2

/-- Whether the directory `path` has any entry strictly below it. -/
def dirNonempty (fs : FS) (path : String) : Bool :=
  fs.files.any (fun e => (path ++ "/").toList.isPrefixOf e.1.toList) ||
  fs.dirs.any (fun d => (path ++ "/").toList.isPrefixOf d.toList)

/-- Modelled from the spec: `check_directory` is imported and exercised by the
repository's test suite but absent from `src/`.  Per spec section 4.6 it fails
with a validation error containing "not a directory" when the path exists and
is not a directory, fails with one containing "not empty" when the path is an
existing non-empty directory, and creates the path when absent. -/
def check_directory (fs : FS) (path : String) : Except String FS :=
  if fs.dirs.contains path then
    if dirNonempty fs path then .error (path ++ " is not empty")
    else .ok fs
  else if (fs.files.map Prod.fst).contains path then
    .error (path ++ " exists and is not a directory")
  else .ok { fs with dirs := fs.dirs ++ [path] }

/-- Modelled from the spec: the validating entry point.  Spec sections 4.5/4.6
and 7 have the Lifecycle Manager validate the output destination before any
materialization; the repository's tests patch `check_directory` inside `main`,
but the `main` in `src/` never calls it. -/
def runExportChecked (commentsOf : String → List Comment)
    (issues : List Issue) (fs : FS) :
    Except String (FS × List (String × String)) := do
  let fs0 ← check_directory fs OUTPUT_DIR
  mainExport commentsOf issues fs0

/-- The placeholder test of main.py:178: credentials are considered unset when
either variable still carries its sentinel default. -/
def credentialsUnset (username apiToken : String) : Bool :=
  username == "<your-email>" || apiToken == "<your-api-token>"

/-- How far `main` gets: the credential gate returns early before the network
client is constructed and before any filesystem write, or the run proceeds. -/
inductive MainOutcome where
  | credentialError
  | completed
deriving DecidableEq

/-- The credential gate of `main` (main.py:178-181). -/
def mainOutcome (username apiToken : String) : MainOutcome :=
  if credentialsUnset username apiToken then .credentialError else .completed

/-- `main`'s Python return value on each path: the credential gate executes a
bare `return` (None), and the success path falls off the end of the function
(also None); neither path returns an integer. -/
def mainReturnValue : MainOutcome → Option Nat
  | .credentialError => none
  | .completed => none

/-- The process exit status: the `if __name__ == "__main__": main()` guard
(main.py:268-269) discards `main`'s return value and never calls `sys.exit`,
so the interpreter exits with status 0 on both paths. -/
def processExitCode (username apiToken : String) : Nat :=
  match mainOutcome username apiToken with
  | .credentialError => 0
  | .completed => 0

/-- `jira.search_issues(jql, startAt=start_at, maxResults=max_results)`: the
remote returns the requested page of the matching issues. -/
def searchIssues (remote : List Issue) (startAt maxResults : Nat) :
    List Issue :=
  (remote.drop startAt).take maxResults

/-- The `while True` paging loop of `main` (main.py:205-218); `fuel` bounds
the iterations so the model is total, and `collectAllIssues` supplies more
fuel than the loop can consume. -/
def collectLoop (remote : List Issue) : Nat → Nat → List Issue → List Issue
  | 0, _, acc => acc
  | fuel + 1, startAt, acc =>
    let issuesBatch := searchIssues remote startAt 50
    if issuesBatch.isEmpty then acc
    else
      let acc' := acc ++ issuesBatch
      if 50 ≤ acc'.length then acc'.take 50
      else if issuesBatch.length < 50 then acc'
      else collectLoop remote fuel (startAt + 50) acc'

/-- The issue-collection phase of `main` (main.py:200-218). -/
def collectAllIssues (remote : List Issue) : List Issue :=
  collectLoop remote (remote.length + 1) 0 []

/-- Pointwise form of the replacement loop: a reserved character becomes an
underscore, any other character is unchanged. -/
def replChar (c : Char) : Char :=
  if c ∈ invalidChars then '_' else c

/-- A plain issue used to build the concrete sample inputs below. -/
def baseIssue : Issue :=
  { key := "P-0", id := "10000", issuetype := "Task", status := "Open",
    summary := "Base summary", reporter := "Reporter", assignee := none,
    updated := "2024-01-22T12:34:56", description := none,
    parent := .absent, epicLink := none }

/-- The test suite's `issue_no_parent` shape: `fields.parent` present and
`None`, no epic link. -/
def issueParentNone : Issue :=
  { baseIssue with key := "SECOPS-300", parent := PAttr.null }

/-- An issue carrying both a direct parent reference and an epic link. -/
def issueBothRefs : Issue :=
  { baseIssue with
      key := "SECOPS-101", parent := PAttr.ref "SECOPS-100" "Epic",
      epicLink := some "SECOPS-200" }

/-- An issue with only a non-empty epic link. -/
def issueEpicLinkOnly : Issue :=
  { baseIssue with key := "SECOPS-201", epicLink := some "SECOPS-200" }

/-- A 91-character summary. -/
def summary91 : String := (List.replicate 91 'a').asString

/-- Sample initiative for the orchestrator scenario. -/
def demoInitiative : Issue :=
  { baseIssue with
      key := "P-1", issuetype := "Initiative", summary := "Top initiative" }

/-- Sample epic whose parent is the sample initiative. -/
def demoEpic : Issue :=
  { baseIssue with
      key := "P-2", issuetype := "Epic", parent := PAttr.ref "P-1" "Initiative" }

/-- Sample story whose parent is the sample epic. -/
def demoStory : Issue :=
  { baseIssue with
      key := "P-3", issuetype := "Story", parent := PAttr.ref "P-2" "Epic" }

/-- Sample task whose declared parent is absent from every batch. -/
def demoOrphanTask : Issue :=
  { baseIssue with
      key := "P-4", issuetype := "Task", parent := PAttr.ref "P-99" "Epic" }

/-- Sample task whose parent is `demoOrphanTask`. -/
def demoChildTask : Issue :=
  { baseIssue with
      key := "P-5", issuetype := "Task", parent := PAttr.ref "P-4" "Task" }

/-- A comment source returning no comments for any issue. -/
def noComments : String → List Comment := fun _ => []

/-- The empty filesystem. -/
def emptyFS : FS := { files := [], dirs := [] }

/-- First materialization of `demoStory` on the empty filesystem. -/
def demoRun1 : Except String (FS × String) :=
  createTicketDirectory demoStory [] none emptyFS

/-- The filesystem produced by `demoRun1`. -/
def demoFS1 : FS :=
  match demoRun1 with
  | .ok (f, _) => f
  | .error _ => emptyFS

/-- The directory path produced by `demoRun1`. -/
def demoPath1 : String :=
  match demoRun1 with
  | .ok (_, p) => p
  | .error _ => ""

/-- An orchestrator run over two tasks: an orphan and its later child. -/
def demoRun2 : Except String (FS × List (String × String)) :=
  mainExport noComments [demoOrphanTask, demoChildTask] emptyFS

/-- The `issue_dirs` map produced by `demoRun2`. -/
def demoDirs2 : List (String × String) :=
  match demoRun2 with
  | .ok (_, d) => d
  | .error _ => []

/-- The filesystem produced by `demoRun2`. -/
def demoFS2 : FS :=
  match demoRun2 with
  | .ok (f, _) => f
  | .error _ => emptyFS

/-- A filesystem where the output destination exists as a regular file. -/
def fsFileAtTickets : FS := { files := [("tickets", "content")], dirs := [] }

/-- A filesystem where the output destination is a non-empty directory. -/
def fsNonemptyTickets : FS :=
  { files := [(joinPath "tickets" "file.txt", "content")], dirs := ["tickets"] }

/-- Claim C2 (status: code bug).  The resolver does raise on the repository's
own test shape `fields.parent = None`: `hasattr` succeeds, the first branch is
taken, and `parent.key` raises `AttributeError`, contradicting the claim (and
the test suite) that a malformed or missing parent field is treated as
absence. -/
theorem claim_C2_resolver_raises_on_null_parent :
    get_issue_relationships issueParentNone =
      .error "AttributeError: NoneType object has no attribute key" := rfl

/-- Claim C3: with a direct parent reference present, the resolver returns
that parent's key and type even when a non-empty epic link is also present;
with no direct parent reference and a non-empty epic link, it returns the raw
link value with type exactly "Epic". -/
theorem claim_C3_resolver_precedence :
    (∀ (i : Issue) (k t s : String), i.parent = .ref k t →
      i.epicLink = some s → s ≠ "" →
      get_issue_relationships i =
        .ok { parent := some { key := k, ptype := t }, children := [] }) ∧
    (∀ (i : Issue) (s : String), i.parent = .absent →
      i.epicLink = some s → s ≠ "" →
      get_issue_relationships i =
        .ok { parent := some { key := s, ptype := "Epic" }, children := [] }) := by
  constructor
  · intro i k t s hp _ _
    simp [get_issue_relationships, hp]
  · intro i s hp he hs
    simp [get_issue_relationships, hp, he, hs]

/-- Witness for claim C3 at concrete issues. -/
theorem claim_C3_witness :
    get_issue_relationships issueBothRefs =
      .ok { parent := some { key := "SECOPS-100", ptype := "Epic" },
            children := [] } ∧
    get_issue_relationships issueEpicLinkOnly =
      .ok { parent := some { key := "SECOPS-200", ptype := "Epic" },
            children := [] } :=
  ⟨claim_C3_resolver_precedence.1 issueBothRefs "SECOPS-100" "Epic"
      "SECOPS-200" rfl rfl (by decide),
   claim_C3_resolver_precedence.2 issueEpicLinkOnly "SECOPS-200" rfl rfl
      (by decide)⟩

/-- Claim C4: a summary longer than 50 characters is displayed as its first 47
characters followed by "..." (50 characters in total), a summary of at most 50
characters is used unmodified, and the display summary is what enters the
directory leaf name. -/
theorem claim_C4_summary_truncation :
    (∀ s : String, 50 < s.length →
      displaySummary s = (s.toList.take 47).asString ++ "..." ∧
      (displaySummary s).length = 50) ∧
    (∀ s : String, s.length ≤ 50 → displaySummary s = s) ∧
    (∀ issue : Issue, dirLeafName issue =
      sanitize_filename (getTypePrefixOf issue.issuetype ++ "-" ++ issue.key
        ++ "-" ++ displaySummary issue.summary)) := by
  refine ⟨?_, ?_, fun _ => rfl⟩
  · intro s h
    have hd : displaySummary s = (s.toList.take 47).asString ++ "..." := by
      simp only [displaySummary]
      rw [if_pos]
      omega
    refine ⟨hd, ?_⟩
    rw [hd, String.length_append, List.length_asString, List.length_take]
    have hs : s.toList.length = s.length := rfl
    have h3 : ("..." : String).length = 3 := rfl
    omega
  · intro s h
    simp only [displaySummary]
    rw [if_neg]
    omega

/-- Witness for claim C4 at a 91-character summary and a short one. -/
theorem claim_C4_witness :
    50 < summary91.length ∧
    displaySummary summary91 = (summary91.toList.take 47).asString ++ "..." ∧
    (displaySummary summary91).length = 50 ∧
    displaySummary "Base summary" = "Base summary" :=
  ⟨by decide,
   (claim_C4_summary_truncation.1 summary91 (by decide)).1,
   (claim_C4_summary_truncation.1 summary91 (by decide)).2,
   claim_C4_summary_truncation.2.1 "Base summary" (by decide)⟩

/-- Claim C7 (status: code bug).  With placeholder credentials the gate does
return before any network or filesystem activity, but `main` returns `None`
(not 1) and the interpreter exits with status 0, not 1. -/
theorem claim_C7_exit_code_zero_on_placeholder :
    mainOutcome "<your-email>" "<your-api-token>" = .credentialError ∧
    mainReturnValue (mainOutcome "<your-email>" "<your-api-token>") = none ∧
    processExitCode "<your-email>" "<your-api-token>" = 0 ∧
    processExitCode "user@example.com" "token" = 0 := by
  refine ⟨?_, ?_, ?_, ?_⟩ <;> rfl

/-- Claim C9: the collection loop accumulates at most 50 issues — it returns
exactly the first 50 matching issues, and a project with more than 50 matching
issues is only partially exported. -/
theorem claim_C9_fifty_issue_cap (remote : List Issue) :
    collectAllIssues remote = remote.take 50 ∧
    (collectAllIssues remote).length ≤ 50 ∧
    (50 < remote.length → collectAllIssues remote ≠ remote) := by
  have hmain : collectAllIssues remote = remote.take 50 := by
    simp only [collectAllIssues, collectLoop, searchIssues, List.drop_zero,
      List.nil_append]
    by_cases h0 : remote = []
    · subst h0
      simp
    · have hne : (remote.take 50).isEmpty = false := by
        cases remote with
        | nil => exact absurd rfl h0
        | cons a t => simp
      simp only [hne, Bool.false_eq_true, if_false]
      by_cases h50 : 50 ≤ remote.length
      · have hlen : (remote.take 50).length = 50 := by
          simp [List.length_take]
          omega
        simp [hlen, List.take_take]
      · have hlen : (remote.take 50).length = remote.length := by
          simp [List.length_take]
          omega
        have hlt : remote.length < 50 := by omega
        simp [h50, hlt]
  refine ⟨hmain, ?_, ?_⟩
  · rw [hmain]
    simp [List.length_take]
  · intro h heq
    rw [hmain] at heq
    have hl := congrArg List.length heq
    simp [List.length_take] at hl
    omega

/-- Witness for claim C9: a 51-issue project is only partially exported. -/
theorem claim_C9_witness :
    50 < (List.replicate 51 baseIssue).length ∧
    collectAllIssues (List.replicate 51 baseIssue) ≠
      List.replicate 51 baseIssue ∧
    (collectAllIssues (List.replicate 51 baseIssue)).length ≤ 50 :=
  ⟨by simp,
   (claim_C9_fifty_issue_cap (List.replicate 51 baseIssue)).2.2 (by simp),
   (claim_C9_fifty_issue_cap (List.replicate 51 baseIssue)).2.1⟩

/-- A map whose function fixes every element of the list is the identity. -/
theorem map_eq_self_of_forall {α : Type} (l : List α) (f : α → α)
    (h : ∀ x ∈ l, f x = x) : l.map f = l := by
  induction l with
  | nil => rfl
  | cons a t ih => simp_all

/-- The replacement loop distributes over a leading character: the head is
rewritten by folding the single-character replacements, the tail is processed
by the same loop. -/
theorem foldl_replaceCharL_cons (cs : List Char) (a : Char) (t : List Char) :
    cs.foldl replaceCharL (a :: t) =
      cs.foldl (fun x c => if x = c then '_' else x) a ::
        cs.foldl replaceCharL t := by
  induction cs generalizing a t with
  | nil => rfl
  | cons c cs ih =>
    simp only [List.foldl_cons, replaceCharL, List.map_cons]
    exact ih _ _

/-- Folding the single-character replacements over the reserved set acts as
`replChar`. -/
theorem charFold_eq_replChar (a : Char) :
    invalidChars.foldl (fun x c => if x = c then '_' else x) a = replChar a := by
  by_cases h : a ∈ invalidChars
  · have h' : a ∈ ['<', '>', ':', '"', '/', '\\', '|', '?', '*'] := h
    simp only [List.mem_cons, List.not_mem_nil, or_false] at h'
    rcases h' with rfl | rfl | rfl | rfl | rfl | rfl | rfl | rfl | rfl <;> rfl
  · have h' : a ∉ ['<', '>', ':', '"', '/', '\\', '|', '?', '*'] := h
    simp only [List.mem_cons, List.not_mem_nil, or_false, not_or] at h'
    obtain ⟨h1, h2, h3, h4, h5, h6, h7, h8, h9⟩ := h'
    simp only [invalidChars, List.foldl_cons, List.foldl_nil, if_neg h1,
      if_neg h2, if_neg h3, if_neg h4, if_neg h5, if_neg h6, if_neg h7,
      if_neg h8, if_neg h9]
    unfold replChar
    rw [if_neg h]

/-- The sequential replacement loop acts pointwise as `replChar`. -/
theorem replaceInvalidL_eq_map (l : List Char) :
    replaceInvalidL l = l.map replChar := by
  induction l with
  | nil => rfl
  | cons a t ih =>
    rw [replaceInvalidL, foldl_replaceCharL_cons, charFold_eq_replChar,
      List.map_cons]
    exact congrArg _ ih

/-- The image of `replChar` avoids the reserved characters. -/
theorem replChar_not_invalid (a : Char) : replChar a ∉ invalidChars := by
  by_cases h : a ∈ invalidChars
  · simp only [replChar, if_pos h]
    decide
  · simp only [replChar, if_neg h]
    exact h

/-- Stripping only removes characters, so membership transfers. -/
theorem mem_stripBoth {l : List Char} {d : Char} (h : d ∈ stripBoth l) :
    d ∈ l := by
  have h1 :=
    (List.rdropWhile_prefix isStripChar (l.dropWhile isStripChar)).sublist.subset h
  exact (List.dropWhile_suffix isStripChar).sublist.subset h1

/-- `replChar` fixes any list free of reserved characters. -/
theorem map_replChar_fixed {l : List Char} (h : ∀ d ∈ l, d ∉ invalidChars) :
    l.map replChar = l :=
  map_eq_self_of_forall _ _ (fun x hx => by simp [replChar, h x hx])

/-- A left-strip fixpoint is inherited by any of its prefixes. -/
theorem dropWhile_eq_self_of_isPrefix {α : Type} {p : α → Bool} {z l : List α}
    (hz : z <+: l) (hl : List.dropWhile p l = l) : List.dropWhile p z = z := by
  cases z with
  | nil => rfl
  | cons a t =>
    obtain ⟨r, rfl⟩ := hz
    rw [List.cons_append, List.dropWhile_cons] at hl
    rw [List.dropWhile_cons]
    by_cases hpa : p a = true
    · rw [if_pos hpa] at hl
      exfalso
      have hle : (List.dropWhile p (t ++ r)).length ≤ (t ++ r).length :=
        (List.dropWhile_suffix p).sublist.length_le
      rw [hl] at hle
      simp at hle
    · rw [if_neg hpa]

/-- Stripping both ends is idempotent. -/
theorem stripBoth_idem (l : List Char) : stripBoth (stripBoth l) = stripBoth l := by
  unfold stripBoth
  have hwfix :
      List.dropWhile isStripChar (List.dropWhile isStripChar l) =
        List.dropWhile isStripChar l :=
    List.dropWhile_idempotent _ _
  have hzfix :
      List.dropWhile isStripChar
          (List.rdropWhile isStripChar (List.dropWhile isStripChar l)) =
        List.rdropWhile isStripChar (List.dropWhile isStripChar l) :=
    dropWhile_eq_self_of_isPrefix (List.rdropWhile_prefix _ _) hwfix
  rw [hzfix]
  exact List.rdropWhile_idempotent _ _

/-- The sanitized output contains no reserved characters. -/
theorem sanitizeL_no_invalid (l : List Char) :
    ∀ d ∈ sanitizeL l, d ∉ invalidChars := by
  intro d hd
  rw [sanitizeL, replaceInvalidL_eq_map] at hd
  obtain ⟨a, _, rfl⟩ := List.mem_map.mp (mem_stripBoth hd)
  exact replChar_not_invalid a

/-- `sanitizeL` is idempotent. -/
theorem sanitizeL_idem (l : List Char) : sanitizeL (sanitizeL l) = sanitizeL l := by
  rw [sanitizeL, replaceInvalidL_eq_map, map_replChar_fixed (sanitizeL_no_invalid l)]
  show stripBoth (stripBoth (replaceInvalidL l)) = stripBoth (replaceInvalidL l)
  exact stripBoth_idem _

/-- Claim C5: `sanitize_filename` replaces every occurrence of a reserved
character with an underscore and then strips leading and trailing spaces and
dots, it is idempotent, and it maps `" a.b. "` to `"a.b"`. -/
theorem claim_C5_sanitize_idempotent :
    (∀ s : String,
      sanitize_filename (sanitize_filename s) = sanitize_filename s) ∧
    (∀ s : String,
      sanitize_filename s = (stripBoth (s.toList.map replChar)).asString) ∧
    sanitize_filename " a.b. " = "a.b" := by
  refine ⟨?_, ?_, by decide⟩
  · intro s
    show (sanitizeL ((sanitizeL s.toList).asString).toList).asString =
      (sanitizeL s.toList).asString
    rw [List.toList_asString, sanitizeL_idem]
  · intro s
    show (sanitizeL s.toList).asString = _
    rw [sanitizeL, replaceInvalidL_eq_map]

/-- Writing a file makes it the binding found by lookup. -/
theorem lookupD_setFile_self (l : List (String × String)) (k v : String) :
    lookupD (setFile l k v) k = some v := by
  induction l with
  | nil => simp [setFile, lookupD]
  | cons e t ih =>
    obtain ⟨k', v'⟩ := e
    by_cases h : k' = k
    · subst h
      simp [setFile, lookupD]
    · simp [setFile, lookupD, h, ih]

/-- Writing one file leaves every other lookup unchanged. -/
theorem lookupD_setFile_ne (l : List (String × String)) {q k : String}
    (h : q ≠ k) (v : String) : lookupD (setFile l k v) q = lookupD l q := by
  induction l with
  | nil => simp [setFile, lookupD, Ne.symm h]
  | cons e t ih =>
    obtain ⟨k', v'⟩ := e
    by_cases h' : k' = k
    · subst h'
      simp [setFile, lookupD, Ne.symm h]
    · simp only [setFile, if_neg h']
      by_cases h'' : k' = q
      · subst h''
        simp [lookupD]
      · simp [lookupD, h'', ih]

/-- Rewriting a file with the content it already has is a no-op. -/
theorem setFile_eq_self_of_lookupD (l : List (String × String)) (k v : String)
    (h : lookupD l k = some v) : setFile l k v = l := by
  induction l with
  | nil => simp [lookupD] at h
  | cons e t ih =>
    obtain ⟨k', v'⟩ := e
    by_cases h' : k' = k
    · subst h'
      simp [lookupD] at h
      simp [setFile, h]
    · simp only [lookupD, if_neg h'] at h
      simp [setFile, h', ih h]

/-- The keys after a write: unchanged when the key existed, the key appended
otherwise. -/
theorem keys_setFile (l : List (String × String)) (k v : String) :
    (setFile l k v).map Prod.fst =
      if k ∈ l.map Prod.fst then l.map Prod.fst else l.map Prod.fst ++ [k] := by
  induction l with
  | nil => simp [setFile]
  | cons e t ih =>
    obtain ⟨k', v'⟩ := e
    by_cases h : k' = k
    · subst h
      simp [setFile]
    · simp only [setFile, if_neg h, List.map_cons, ih, List.mem_cons]
      by_cases hm : k ∈ t.map Prod.fst
      · simp [hm, Ne.symm h]
      · simp [hm, Ne.symm h]

/-- A write preserves distinctness of the file paths. -/
theorem nodup_keys_setFile (l : List (String × String)) (k v : String)
    (h : (l.map Prod.fst).Nodup) : ((setFile l k v).map Prod.fst).Nodup := by
  rw [keys_setFile]
  by_cases hm : k ∈ l.map Prod.fst
  · simpa [hm] using h
  · simp [hm, List.nodup_append, h]

/-- No entry carries a key outside the key list. -/
theorem countKey_eq_zero_of_not_mem (l : List (String × String)) (k : String)
    (h : k ∉ l.map Prod.fst) :
    l.countP (fun e => e.1 == k) = 0 := by
  refine List.countP_eq_zero.mpr ?_
  intro e he hk
  exact h (List.mem_map.mpr ⟨e, he, by simpa using hk⟩)

/-- After a write to a duplicate-free store, the written path names exactly
one file. -/
theorem countKey_setFile_self (l : List (String × String)) (k v : String)
    (h : (l.map Prod.fst).Nodup) :
    (setFile l k v).countP (fun e => e.1 == k) = 1 := by
  induction l with
  | nil => simp [setFile]
  | cons e t ih =>
    obtain ⟨k', v'⟩ := e
    simp only [List.map_cons, List.nodup_cons] at h
    by_cases hk : k' = k
    · subst hk
      simp [setFile, List.countP_cons, countKey_eq_zero_of_not_mem t k' h.1]
    · simp [setFile, hk, List.countP_cons, ih h.2]

/-- A write to a different path does not change how many files a path names. -/
theorem countKey_setFile_ne (l : List (String × String)) {q k : String}
    (h : k ≠ q) (v : String) :
    (setFile l k v).countP (fun e => e.1 == q) =
      l.countP (fun e => e.1 == q) := by
  induction l with
  | nil => simp [setFile, h]
  | cons e t ih =>
    obtain ⟨k', v'⟩ := e
    by_cases h' : k' = k
    · subst h'
      simp [setFile, List.countP_cons, h]
    · simp [setFile, h', List.countP_cons, ih]

/-- `os.makedirs` never touches regular files. -/
theorem mkdirFS_files (fs : FS) (d : String) : (mkdirFS fs d).files = fs.files := by
  simp only [mkdirFS]
  split <;> rfl

/-- After `os.makedirs` the directory exists. -/
theorem mkdirFS_contains_self (fs : FS) (d : String) :
    (mkdirFS fs d).dirs.contains d = true := by
  simp only [mkdirFS]
  split
  · assumption
  · simp

/-- `os.makedirs(..., exist_ok=True)` on an existing directory is a no-op. -/
theorem mkdirFS_of_contains (fs : FS) (d : String)
    (h : fs.dirs.contains d = true) : mkdirFS fs d = fs := by
  have h' : d ∈ fs.dirs := by simpa using h
  simp [mkdirFS, h']

/-- The success equation of the materializer: when the resolver succeeds, the
directory is created and the two documents are written. -/
theorem createTicketDirectory_ok_eq (issue : Issue) (comments : List Comment)
    (parentDir : Option String) (fs : FS) (rel : Rels)
    (h : get_issue_relationships issue = .ok rel) :
    createTicketDirectory issue comments parentDir fs =
      .ok ({ files := setFile
               (setFile
                 (mkdirFS fs
                   (joinPath (parentDir.getD OUTPUT_DIR) (dirLeafName issue))).files
                 (joinPath (joinPath (parentDir.getD OUTPUT_DIR) (dirLeafName issue))
                   "metadata.json")
                 (metadataJson issue rel))
               (joinPath (joinPath (parentDir.getD OUTPUT_DIR) (dirLeafName issue))
                 "ticket.md")
               (ticketMd issue rel comments),
             dirs := (mkdirFS fs
               (joinPath (parentDir.getD OUTPUT_DIR) (dirLeafName issue))).dirs },
           joinPath (parentDir.getD OUTPUT_DIR) (dirLeafName issue)) := by
  cases parentDir <;> simp [createTicketDirectory, h, mkdirFS_files]

/-- The two document paths inside one ticket directory differ. -/
theorem joinPath_ne_metadata_ticket (a : String) :
    joinPath a "metadata.json" ≠ joinPath a "ticket.md" := by
  intro h
  have hl := congrArg String.length h
  have h13 : ("metadata.json" : String).length = 13 := rfl
  have h9 : ("ticket.md" : String).length = 9 := rfl
  simp only [joinPath, String.length_append, h13, h9] at hl
  omega

/-- Claim C8: re-running the materializer with the same issue, comments and
base directory returns the same path, does not fail on the existing
directory, leaves the filesystem unchanged (contents overwritten in place),
and the directory holds exactly one `metadata.json` and one `ticket.md`. -/
theorem claim_C8_materializer_idempotent (issue : Issue)
    (comments : List Comment) (parentDir : Option String) (fs fs1 : FS)
    (p1 : String) (hnd : (fs.files.map Prod.fst).Nodup)
    (hrun : createTicketDirectory issue comments parentDir fs = .ok (fs1, p1)) :
    createTicketDirectory issue comments parentDir fs1 = .ok (fs1, p1) ∧
    fs1.files.countP (fun e => e.1 == joinPath p1 "metadata.json") = 1 ∧
    fs1.files.countP (fun e => e.1 == joinPath p1 "ticket.md") = 1 := by
  cases hrel : get_issue_relationships issue with
  | error e =>
    simp [createTicketDirectory, hrel] at hrun
  | ok rel =>
    rw [createTicketDirectory_ok_eq issue comments parentDir fs rel hrel] at hrun
    simp only [Except.ok.injEq, Prod.mk.injEq] at hrun
    obtain ⟨hfs, hp⟩ := hrun
    subst hfs
    subst hp
    have hne : joinPath (joinPath (parentDir.getD OUTPUT_DIR) (dirLeafName issue))
        "metadata.json" ≠
        joinPath (joinPath (parentDir.getD OUTPUT_DIR) (dirLeafName issue))
        "ticket.md" :=
      joinPath_ne_metadata_ticket _
    have hF := mkdirFS_files fs
      (joinPath (parentDir.getD OUTPUT_DIR) (dirLeafName issue))
    constructor
    · rw [createTicketDirectory_ok_eq issue comments parentDir _ rel hrel]
      have hmkA : mkdirFS
          ({ files := setFile
               (setFile
                 (mkdirFS fs
                   (joinPath (parentDir.getD OUTPUT_DIR) (dirLeafName issue))).files
                 (joinPath (joinPath (parentDir.getD OUTPUT_DIR) (dirLeafName issue))
                   "metadata.json")
                 (metadataJson issue rel))
               (joinPath (joinPath (parentDir.getD OUTPUT_DIR) (dirLeafName issue))
                 "ticket.md")
               (ticketMd issue rel comments),
             dirs := (mkdirFS fs
               (joinPath (parentDir.getD OUTPUT_DIR) (dirLeafName issue))).dirs } : FS)
          (joinPath (parentDir.getD OUTPUT_DIR) (dirLeafName issue)) =
          ({ files := setFile
               (setFile
                 (mkdirFS fs
                   (joinPath (parentDir.getD OUTPUT_DIR) (dirLeafName issue))).files
                 (joinPath (joinPath (parentDir.getD OUTPUT_DIR) (dirLeafName issue))
                   "metadata.json")
                 (metadataJson issue rel))
               (joinPath (joinPath (parentDir.getD OUTPUT_DIR) (dirLeafName issue))
                 "ticket.md")
               (ticketMd issue rel comments),
             dirs := (mkdirFS fs
               (joinPath (parentDir.getD OUTPUT_DIR) (dirLeafName issue))).dirs } : FS) :=
        mkdirFS_of_contains _ _ (mkdirFS_contains_self fs _)
      rw [hmkA]
      have hlk1 : lookupD
          (setFile
            (setFile
              (mkdirFS fs
                (joinPath (parentDir.getD OUTPUT_DIR) (dirLeafName issue))).files
              (joinPath (joinPath (parentDir.getD OUTPUT_DIR) (dirLeafName issue))
                "metadata.json")
              (metadataJson issue rel))
            (joinPath (joinPath (parentDir.getD OUTPUT_DIR) (dirLeafName issue))
              "ticket.md")
            (ticketMd issue rel comments))
          (joinPath (joinPath (parentDir.getD OUTPUT_DIR) (dirLeafName issue))
            "metadata.json") = some (metadataJson issue rel) := by
        rw [lookupD_setFile_ne _ hne, lookupD_setFile_self]
      have hlk2 : lookupD
          (setFile
            (setFile
              (mkdirFS fs
                (joinPath (parentDir.getD OUTPUT_DIR) (dirLeafName issue))).files
              (joinPath (joinPath (parentDir.getD OUTPUT_DIR) (dirLeafName issue))
                "metadata.json")
              (metadataJson issue rel))
            (joinPath (joinPath (parentDir.getD OUTPUT_DIR) (dirLeafName issue))
              "ticket.md")
            (ticketMd issue rel comments))
          (joinPath (joinPath (parentDir.getD OUTPUT_DIR) (dirLeafName issue))
            "ticket.md") = some (ticketMd issue rel comments) :=
        lookupD_setFile_self _ _ _
      simp only [setFile_eq_self_of_lookupD _ _ _ hlk1,
        setFile_eq_self_of_lookupD _ _ _ hlk2]
    · constructor
      · rw [countKey_setFile_ne _ (Ne.symm hne)]
        exact countKey_setFile_self _ _ _ (by rw [hF]; exact hnd)
      · exact countKey_setFile_self _ _ _
          (nodup_keys_setFile _ _ _ (by rw [hF]; exact hnd))

/-- Witness for claim C8: materializing `demoStory` twice on the empty
filesystem returns the same path and state, with one copy of each document. -/
theorem claim_C8_witness :
    createTicketDirectory demoStory [] none emptyFS = .ok (demoFS1, demoPath1) ∧
    createTicketDirectory demoStory [] none demoFS1 = .ok (demoFS1, demoPath1) ∧
    demoFS1.files.countP
      (fun e => e.1 == joinPath demoPath1 "metadata.json") = 1 ∧
    demoFS1.files.countP (fun e => e.1 == joinPath demoPath1 "ticket.md") = 1 := by
  have h0 : createTicketDirectory demoStory [] none emptyFS =
      .ok (demoFS1, demoPath1) := rfl
  have h := claim_C8_materializer_idempotent demoStory [] none emptyFS demoFS1
    demoPath1 (by simp [emptyFS]) h0
  exact ⟨h0, h.1, h.2.1, h.2.2⟩

/-- An infix of a list is an infix of any left-extension of it. -/
theorem isInfix_append_left {α : Type} {x t : List α} (s : List α)
    (h : x <:+: t) : x <:+: s ++ t := by
  obtain ⟨u, v, huv⟩ := h
  exact ⟨s ++ u, v, by rw [← huv]; simp⟩

/-- A substring of `t` is a substring of `s ++ t`. -/
theorem containsSub_append_right (needle s t : String)
    (h : containsSub needle t = true) : containsSub needle (s ++ t) = true := by
  simp only [containsSub, decide_eq_true_eq] at h ⊢
  have ha : (s ++ t).toList = s.toList ++ t.toList := rfl
  rw [ha]
  exact isInfix_append_left _ h

/-- Claim C6: `check_directory` raises a validation error containing "not a
directory" when the path exists as a regular file, raises one containing "not
empty" when the path is an existing non-empty directory, creates the path and
succeeds when it is absent; and a validation error aborts the checked run
before any ticket directory is written. -/
theorem claim_C6_check_directory :
    (∀ (fs : FS) (p : String), fs.dirs.contains p = false →
      (fs.files.map Prod.fst).contains p = true →
      ∃ m, check_directory fs p = .error m ∧
        containsSub "not a directory" m = true) ∧
    (∀ (fs : FS) (p : String), fs.dirs.contains p = true →
      dirNonempty fs p = true →
      ∃ m, check_directory fs p = .error m ∧
        containsSub "not empty" m = true) ∧
    (∀ (fs : FS) (p : String), fs.dirs.contains p = false →
      (fs.files.map Prod.fst).contains p = false →
      check_directory fs p = .ok { fs with dirs := fs.dirs ++ [p] }) ∧
    (∀ (c : String → List Comment) (issues : List Issue) (fs : FS) (m : String),
      check_directory fs OUTPUT_DIR = .error m →
      runExportChecked c issues fs = .error m) := by
  refine ⟨?_, ?_, ?_, ?_⟩
  · intro fs p h1 h2
    have h1' : p ∉ fs.dirs := by simpa using h1
    have h2' : p ∈ fs.files.map Prod.fst := by simpa using h2
    obtain ⟨⟨pk, pv⟩, hmem, hfst⟩ := List.mem_map.mp h2'
    refine ⟨p ++ " exists and is not a directory", ?_, ?_⟩
    · simp only at hfst
      subst hfst
      simp [check_directory, h1']
      exact ⟨pv, hmem⟩
    · exact containsSub_append_right _ p _ (by decide)
  · intro fs p h1 h2
    have h1' : p ∈ fs.dirs := by simpa using h1
    refine ⟨p ++ " is not empty", ?_, ?_⟩
    · simp [check_directory, h1', h2]
    · exact containsSub_append_right _ p _ (by decide)
  · intro fs p h1 h2
    have h1' : p ∉ fs.dirs := by simpa using h1
    have h2' : p ∉ fs.files.map Prod.fst := by simpa using h2
    simp [check_directory, h1']
    intro x hx
    exact h2' (List.mem_map.mpr ⟨(p, x), hx, rfl⟩)
  · intro c issues fs m h
    unfold runExportChecked
    rw [h]
    rfl

/-- Witness for claim C6 on concrete filesystems: a file at the destination,
a non-empty destination directory, an absent destination, and an aborted
checked run. -/
theorem claim_C6_witness :
    (∃ m, check_directory fsFileAtTickets "tickets" = .error m ∧
      containsSub "not a directory" m = true) ∧
    (∃ m, check_directory fsNonemptyTickets "tickets" = .error m ∧
      containsSub "not empty" m = true) ∧
    check_directory emptyFS "tickets" =
      .ok { emptyFS with dirs := emptyFS.dirs ++ ["tickets"] } ∧
    runExportChecked noComments [demoStory] fsFileAtTickets =
      .error ("tickets" ++ " exists and is not a directory") :=
  ⟨claim_C6_check_directory.1 fsFileAtTickets "tickets" (by decide) (by decide)
      |>.imp (fun m hm => hm),
   claim_C6_check_directory.2.1 fsNonemptyTickets "tickets" (by decide)
      (by decide) |>.imp (fun m hm => hm),
   claim_C6_check_directory.2.2.1 emptyFS "tickets" (by decide) (by decide),
   claim_C6_check_directory.2.2.2 noComments [demoStory] fsFileAtTickets
      ("tickets" ++ " exists and is not a directory") rfl⟩

/-- Path form of the materializer's success: the returned directory is the
leaf name joined under the base directory. -/
theorem createTicketDirectory_ok_path (issue : Issue) (comments : List Comment)
    (parentDir : Option String) (fs : FS) (rel : Rels)
    (h : get_issue_relationships issue = .ok rel) :
    ∃ fs', createTicketDirectory issue comments parentDir fs =
      .ok (fs', joinPath (parentDir.getD OUTPUT_DIR) (dirLeafName issue)) :=
  ⟨_, createTicketDirectory_ok_eq issue comments parentDir fs rel h⟩

/-- An initiative is materialized at the output root and recorded. -/
theorem stepInitiative_ok (c : String → List Comment)
    (st : FS × List (String × String)) (issue : Issue) (rel : Rels)
    (h : get_issue_relationships issue = .ok rel) :
    ∃ fs', stepInitiative c st issue =
      .ok (fs', insertD st.2 issue.key
        (joinPath OUTPUT_DIR (dirLeafName issue))) := by
  obtain ⟨fs', hc⟩ :=
    createTicketDirectory_ok_path issue (c issue.key) none st.1 rel h
  exact ⟨fs', by simp [stepInitiative, hc]⟩

/-- An epic whose resolved parent key is recorded is materialized under that
parent's directory. -/
theorem stepEpic_found (c : String → List Comment)
    (st : FS × List (String × String)) (issue : Issue) (rel : Rels)
    (pr : ParentRef) (d : String)
    (h : get_issue_relationships issue = .ok rel) (hp : rel.parent = some pr)
    (hd : lookupD st.2 pr.key = some d) :
    ∃ fs', stepEpic c st issue =
      .ok (fs', insertD st.2 issue.key (joinPath d (dirLeafName issue))) := by
  obtain ⟨fs', hc⟩ :=
    createTicketDirectory_ok_path issue (c issue.key) (some d) st.1 rel h
  exact ⟨fs', by simp [stepEpic, h, hp, hd, hc]⟩

/-- A story or task whose resolved parent key is recorded is materialized
under that parent's directory. -/
theorem stepOther_found (c : String → List Comment)
    (st : FS × List (String × String)) (issue : Issue) (rel : Rels)
    (pr : ParentRef) (d : String)
    (h : get_issue_relationships issue = .ok rel) (hp : rel.parent = some pr)
    (hd : lookupD st.2 pr.key = some d) :
    ∃ fs', stepOther c st issue =
      .ok (fs', insertD st.2 issue.key (joinPath d (dirLeafName issue))) := by
  obtain ⟨fs', hc⟩ :=
    createTicketDirectory_ok_path issue (c issue.key) (some d) st.1 rel h
  exact ⟨fs', by simp [stepOther, h, hp, hd, hc]⟩

/-- A story or task with no recorded parent is materialized under the
unassigned directory. -/
theorem stepOther_unassigned (c : String → List Comment)
    (st : FS × List (String × String)) (issue : Issue) (rel : Rels)
    (h : get_issue_relationships issue = .ok rel)
    (hp : rel.parent = none ∨
      ∃ pr, rel.parent = some pr ∧ lookupD st.2 pr.key = none) :
    ∃ fs', stepOther c st issue =
      .ok (fs', insertD st.2 issue.key
        (joinPath unassignedDir (dirLeafName issue))) := by
  obtain ⟨fs', hc⟩ :=
    createTicketDirectory_ok_path issue (c issue.key) (some unassignedDir)
      st.1 rel h
  rcases hp with hp | ⟨pr, hp, hlk⟩
  · exact ⟨fs', by simp [stepOther, h, hp, hc]⟩
  · exact ⟨fs', by simp [stepOther, h, hp, hlk, hc]⟩

/-- Every successful loop step extends the map with the processed issue's
key (initiatives tier). -/
theorem stepInitiative_shape (c : String → List Comment)
    (st : FS × List (String × String)) (issue : Issue)
    (st' : FS × List (String × String))
    (h : stepInitiative c st issue = .ok st') :
    ∃ fs' p, st' = (fs', insertD st.2 issue.key p) := by
  unfold stepInitiative at h
  cases hc : createTicketDirectory issue (c issue.key) none st.1 with
  | error e => rw [hc] at h; cases h
  | ok r =>
    obtain ⟨f, p⟩ := r
    rw [hc] at h
    cases h
    exact ⟨f, p, rfl⟩

/-- Every successful loop step extends the map with the processed issue's
key (epics tier). -/
theorem stepEpic_shape (c : String → List Comment)
    (st : FS × List (String × String)) (issue : Issue)
    (st' : FS × List (String × String))
    (h : stepEpic c st issue = .ok st') :
    ∃ fs' p, st' = (fs', insertD st.2 issue.key p) := by
  unfold stepEpic at h
  cases hrel : get_issue_relationships issue with
  | error e => rw [hrel] at h; cases h
  | ok rel =>
    rw [hrel] at h
    dsimp only at h
    cases hpar : rel.parent with
    | none =>
      rw [hpar] at h
      dsimp only at h
      cases hc : createTicketDirectory issue (c issue.key) none st.1 with
      | error e => rw [hc] at h; cases h
      | ok r =>
        obtain ⟨f, p⟩ := r
        rw [hc] at h
        cases h
        exact ⟨f, p, rfl⟩
    | some pr =>
      rw [hpar] at h
      dsimp only at h
      cases hc : createTicketDirectory issue (c issue.key)
          (lookupD st.2 pr.key) st.1 with
      | error e => rw [hc] at h; cases h
      | ok r =>
        obtain ⟨f, p⟩ := r
        rw [hc] at h
        cases h
        exact ⟨f, p, rfl⟩

/-- Every successful loop step extends the map with the processed issue's
key (stories/tasks tier). -/
theorem stepOther_shape (c : String → List Comment)
    (st : FS × List (String × String)) (issue : Issue)
    (st' : FS × List (String × String))
    (h : stepOther c st issue = .ok st') :
    ∃ fs' p, st' = (fs', insertD st.2 issue.key p) := by
  unfold stepOther at h
  cases hrel : get_issue_relationships issue with
  | error e => rw [hrel] at h; cases h
  | ok rel =>
    rw [hrel] at h
    dsimp only at h
    cases hpar : rel.parent with
    | none =>
      rw [hpar] at h
      dsimp only at h
      cases hc : createTicketDirectory issue (c issue.key)
          (some unassignedDir) st.1 with
      | error e => rw [hc] at h; cases h
      | ok r =>
        obtain ⟨f, p⟩ := r
        rw [hc] at h
        cases h
        exact ⟨f, p, rfl⟩
    | some pr =>
      rw [hpar] at h
      dsimp only at h
      cases hlk : lookupD st.2 pr.key with
      | none =>
        rw [hlk] at h
        dsimp only at h
        cases hc : createTicketDirectory issue (c issue.key)
            (some unassignedDir) st.1 with
        | error e => rw [hc] at h; cases h
        | ok r =>
          obtain ⟨f, p⟩ := r
          rw [hc] at h
          cases h
          exact ⟨f, p, rfl⟩
      | some d =>
        rw [hlk] at h
        dsimp only at h
        cases hc : createTicketDirectory issue (c issue.key)
            (some d) st.1 with
        | error e => rw [hc] at h; cases h
        | ok r =>
          obtain ⟨f, p⟩ := r
          rw [hc] at h
          cases h
          exact ⟨f, p, rfl⟩

/-- Keys present in the map survive a tier loop whose steps only prepend. -/
theorem foldlM_lookup_preserve
    (step : (FS × List (String × String)) → Issue →
      Except String (FS × List (String × String)))
    (hshape : ∀ st issue st', step st issue = .ok st' →
      ∃ fs' p, st' = (fs', insertD st.2 issue.key p))
    (l : List Issue) (st st' : FS × List (String × String))
    (hf : l.foldlM step st = .ok st') (q : String)
    (hq : ∃ p, lookupD st.2 q = some p) :
    ∃ p, lookupD st'.2 q = some p := by
  induction l generalizing st with
  | nil =>
    simp only [List.foldlM_nil, pure, Except.pure, Except.ok.injEq] at hf
    subst hf
    exact hq
  | cons i t ih =>
    rw [List.foldlM_cons] at hf
    cases hstep : step st i with
    | error e => rw [hstep] at hf; cases hf
    | ok st1 =>
      rw [hstep] at hf
      simp only [bind, Except.bind] at hf
      obtain ⟨fs', p, rfl⟩ := hshape st i st1 hstep
      obtain ⟨p0, hp0⟩ := hq
      refine ih _ hf ?_
      by_cases hqk : i.key = q
      · exact ⟨p, by simp [insertD, lookupD, hqk]⟩
      · exact ⟨p0, by simp [insertD, lookupD, hqk, hp0]⟩

/-- After a successful tier loop, every processed issue's key is recorded. -/
theorem foldlM_lookup_mem
    (step : (FS × List (String × String)) → Issue →
      Except String (FS × List (String × String)))
    (hshape : ∀ st issue st', step st issue = .ok st' →
      ∃ fs' p, st' = (fs', insertD st.2 issue.key p))
    (l : List Issue) (st st' : FS × List (String × String))
    (hf : l.foldlM step st = .ok st') (issue : Issue) (hmem : issue ∈ l) :
    ∃ p, lookupD st'.2 issue.key = some p := by
  induction l generalizing st with
  | nil => cases hmem
  | cons i t ih =>
    rw [List.foldlM_cons] at hf
    cases hstep : step st i with
    | error e => rw [hstep] at hf; cases hf
    | ok st1 =>
      rw [hstep] at hf
      simp only [bind, Except.bind] at hf
      rcases List.mem_cons.mp hmem with rfl | hmem'
      · obtain ⟨fs', p, rfl⟩ := hshape st issue st1 hstep
        exact foldlM_lookup_preserve step hshape t _ st' hf issue.key
          ⟨p, by simp [insertD, lookupD]⟩
      · exact ih _ hf hmem'

/-- Claim C10: after a successful run, `issue_dirs` records a directory for
every fetched issue regardless of tier or placement; and a later-processed
story or task whose resolved parent key is recorded — whatever materialized
it earlier, including an unassigned-bucket entry — is nested under that
recorded directory. -/
theorem claim_C10_issue_dirs_records_all :
    (∀ (c : String → List Comment) (issues : List Issue) (fs fs' : FS)
      (dirs' : List (String × String)),
      mainExport c issues fs = .ok (fs', dirs') →
      ∀ issue ∈ issues, ∃ p, lookupD dirs' issue.key = some p) ∧
    (∀ (c : String → List Comment) (fs : FS) (dirs : List (String × String))
      (issue : Issue) (rel : Rels) (pr : ParentRef) (d : String),
      get_issue_relationships issue = .ok rel → rel.parent = some pr →
      lookupD dirs pr.key = some d →
      ∃ fs', stepOther c (fs, dirs) issue =
        .ok (fs', insertD dirs issue.key (joinPath d (dirLeafName issue)))) := by
  constructor
  · intro c issues fs fs' dirs' h issue hmem
    unfold mainExport at h
    dsimp only at h
    cases h1 : (issues.filter isInitiativeType).foldlM (stepInitiative c)
        (mkdirFS (mkdirFS fs OUTPUT_DIR) unassignedDir, []) with
    | error e =>
      rw [h1] at h
      simp only [bind, Except.bind] at h
      exact Except.noConfusion h
    | ok st1 =>
      rw [h1] at h
      simp only [bind, Except.bind] at h
      cases h2 : (issues.filter fun i => !isInitiativeType i && isEpicType i
          ).foldlM (stepEpic c) st1 with
      | error e =>
        rw [h2] at h
        simp only [Except.bind] at h
        exact Except.noConfusion h
      | ok st2 =>
        rw [h2] at h
        simp only [Except.bind] at h
        by_cases hbi : isInitiativeType issue = true
        · have hm1 : issue ∈ issues.filter isInitiativeType :=
            List.mem_filter.mpr ⟨hmem, hbi⟩
          have hst1 := foldlM_lookup_mem _ (stepInitiative_shape c) _ _ _
            h1 issue hm1
          have hst2 := foldlM_lookup_preserve _ (stepEpic_shape c) _ _ _
            h2 issue.key hst1
          exact foldlM_lookup_preserve _ (stepOther_shape c) _ _ _
            h issue.key hst2
        · by_cases hbe : isEpicType issue = true
          · have hm2 : issue ∈ issues.filter
                (fun i => !isInitiativeType i && isEpicType i) :=
              List.mem_filter.mpr ⟨hmem, by simp [hbi, hbe]⟩
            have hst2 := foldlM_lookup_mem _ (stepEpic_shape c) _ _ _
              h2 issue hm2
            exact foldlM_lookup_preserve _ (stepOther_shape c) _ _ _
              h issue.key hst2
          · have hm3 : issue ∈ issues.filter
                (fun i => !isInitiativeType i && !isEpicType i) :=
              List.mem_filter.mpr ⟨hmem, by simp [hbi, hbe]⟩
            exact foldlM_lookup_mem _ (stepOther_shape c) _ _ _ h issue hm3
  · intro c fs dirs issue rel pr d h hp hlk
    exact stepOther_found c (fs, dirs) issue rel pr d h hp hlk

/-- Witness for claim C10: in the two-task run both keys are recorded, and a
task whose parent is the unassigned-bucket orphan nests under the orphan's
directory. -/
theorem claim_C10_witness :
    (∃ p, lookupD demoDirs2 demoOrphanTask.key = some p) ∧
    (∃ p, lookupD demoDirs2 demoChildTask.key = some p) ∧
    (∃ fs', stepOther noComments (emptyFS,
        [("P-4", joinPath unassignedDir (dirLeafName demoOrphanTask))])
        demoChildTask =
      .ok (fs',
        insertD [("P-4", joinPath unassignedDir (dirLeafName demoOrphanTask))]
          demoChildTask.key
          (joinPath (joinPath unassignedDir (dirLeafName demoOrphanTask))
            (dirLeafName demoChildTask)))) := by
  have h0 : mainExport noComments [demoOrphanTask, demoChildTask] emptyFS =
      .ok (demoFS2, demoDirs2) := by rfl
  refine ⟨?_, ?_, ?_⟩
  · exact claim_C10_issue_dirs_records_all.1 noComments _ _ _ _ h0
      demoOrphanTask (List.mem_cons_self _ _)
  · exact claim_C10_issue_dirs_records_all.1 noComments _ _ _ _ h0
      demoChildTask (List.mem_cons_of_mem _ (List.mem_cons_self _ _))
  · exact claim_C10_issue_dirs_records_all.2 noComments emptyFS _ demoChildTask
      { parent := some { key := "P-4", ptype := "Task" }, children := [] }
      { key := "P-4", ptype := "Task" } _ rfl rfl rfl

/-- Claim C1: for a batch of one initiative I, one epic E resolving to I, and
one task T resolving to E, the orchestrator nests T's directory inside E's
inside I's under the output root; and a story or task whose resolved parent
key is not among the keys materialized earlier lands under the 0-UNASSIGNED
subdirectory of the output root. -/
theorem claim_C1_hierarchy_and_fallback :
    (∀ (c : String → List Comment) (fs : FS) (I E T : Issue) (relI : Rels)
      (pE pT : ParentRef),
      isInitiativeType I = true →
      isInitiativeType E = false → isEpicType E = true →
      isInitiativeType T = false → isEpicType T = false →
      get_issue_relationships I = .ok relI →
      get_issue_relationships E = .ok { parent := some pE, children := [] } →
      pE.key = I.key →
      get_issue_relationships T = .ok { parent := some pT, children := [] } →
      pT.key = E.key →
      T.key ≠ E.key → T.key ≠ I.key → E.key ≠ I.key →
      ∃ fs' dirs', mainExport c [I, E, T] fs = .ok (fs', dirs') ∧
        lookupD dirs' I.key = some (joinPath OUTPUT_DIR (dirLeafName I)) ∧
        lookupD dirs' E.key =
          some (joinPath (joinPath OUTPUT_DIR (dirLeafName I)) (dirLeafName E)) ∧
        lookupD dirs' T.key =
          some (joinPath (joinPath (joinPath OUTPUT_DIR (dirLeafName I))
            (dirLeafName E)) (dirLeafName T))) ∧
    (∀ (c : String → List Comment) (fs : FS) (dirs : List (String × String))
      (issue : Issue) (rel : Rels),
      get_issue_relationships issue = .ok rel →
      (rel.parent = none ∨
        ∃ pr, rel.parent = some pr ∧ lookupD dirs pr.key = none) →
      ∃ fs', stepOther c (fs, dirs) issue =
        .ok (fs', insertD dirs issue.key
          (joinPath unassignedDir (dirLeafName issue)))) := by
  constructor
  · intro c fs I E T relI pE pT hI hE1 hE2 hT1 hT2 hrI hrE hkE hrT hkT
      hneTE hneTI hneEI
    have hfi : [I, E, T].filter isInitiativeType = [I] := by
      simp [List.filter, hI, hE1, hT1]
    have hfe : [I, E, T].filter
        (fun i => !isInitiativeType i && isEpicType i) = [E] := by
      simp [List.filter, hI, hE1, hE2, hT1, hT2]
    have hfo : [I, E, T].filter
        (fun i => !isInitiativeType i && !isEpicType i) = [T] := by
      simp [List.filter, hI, hE1, hE2, hT1, hT2]
    obtain ⟨fsA, hA⟩ := stepInitiative_ok c
      (mkdirFS (mkdirFS fs OUTPUT_DIR) unassignedDir, []) I relI hrI
    obtain ⟨fsB, hB⟩ := stepEpic_found c
      (fsA, insertD [] I.key (joinPath OUTPUT_DIR (dirLeafName I))) E
      { parent := some pE, children := [] } pE
      (joinPath OUTPUT_DIR (dirLeafName I)) hrE rfl
      (by simp [insertD, lookupD, hkE])
    obtain ⟨fsC, hC⟩ := stepOther_found c
      (fsB, insertD (insertD [] I.key (joinPath OUTPUT_DIR (dirLeafName I)))
        E.key (joinPath (joinPath OUTPUT_DIR (dirLeafName I)) (dirLeafName E)))
      T { parent := some pT, children := [] } pT
      (joinPath (joinPath OUTPUT_DIR (dirLeafName I)) (dirLeafName E)) hrT rfl
      (by simp [insertD, lookupD, hkT])
    refine ⟨fsC,
      insertD (insertD (insertD [] I.key (joinPath OUTPUT_DIR (dirLeafName I)))
        E.key (joinPath (joinPath OUTPUT_DIR (dirLeafName I)) (dirLeafName E)))
        T.key (joinPath (joinPath (joinPath OUTPUT_DIR (dirLeafName I))
          (dirLeafName E)) (dirLeafName T)),
      ?_, ?_, ?_, ?_⟩
    · dsimp only at hA hB hC
      unfold mainExport
      dsimp only
      rw [hfi, hfe, hfo]
      simp only [List.foldlM_cons, List.foldlM_nil, hA, hB, hC, bind,
        Except.bind, pure, Except.pure]
    · simp [insertD, lookupD, hneTI, hneEI]
    · simp [insertD, lookupD, hneTE]
    · simp [insertD, lookupD]
  · intro c fs dirs issue rel h hp
    exact stepOther_unassigned c (fs, dirs) issue rel h hp

/-- Witness for claim C1 at the concrete initiative/epic/story batch, plus a
concrete orphan task landing in the unassigned bucket. -/
theorem claim_C1_witness :
    (∃ fs' dirs',
      mainExport noComments [demoInitiative, demoEpic, demoStory] emptyFS =
        .ok (fs', dirs') ∧
      lookupD dirs' demoInitiative.key =
        some (joinPath OUTPUT_DIR (dirLeafName demoInitiative)) ∧
      lookupD dirs' demoEpic.key =
        some (joinPath (joinPath OUTPUT_DIR (dirLeafName demoInitiative))
          (dirLeafName demoEpic)) ∧
      lookupD dirs' demoStory.key =
        some (joinPath (joinPath (joinPath OUTPUT_DIR
          (dirLeafName demoInitiative)) (dirLeafName demoEpic))
          (dirLeafName demoStory))) ∧
    (∃ fs', stepOther noComments (emptyFS, []) demoOrphanTask =
      .ok (fs', insertD [] demoOrphanTask.key
        (joinPath unassignedDir (dirLeafName demoOrphanTask)))) :=
  ⟨claim_C1_hierarchy_and_fallback.1 noComments emptyFS demoInitiative demoEpic
      demoStory { parent := none, children := [] }
      { key := "P-1", ptype := "Initiative" } { key := "P-2", ptype := "Epic" }
      (by decide) (by decide) (by decide) (by decide) (by decide)
      rfl rfl rfl rfl rfl (by decide) (by decide) (by decide),
   claim_C1_hierarchy_and_fallback.2 noComments emptyFS [] demoOrphanTask
      { parent := some { key := "P-99", ptype := "Epic" }, children := [] }
      rfl (Or.inr ⟨{ key := "P-99", ptype := "Epic" }, rfl, rfl⟩)⟩
